import Mathlib

/-!
Shallow embedding of the mock-server core of `src/server.rs`: the mock data
model (`RemoteMock`, `Matcher`, `MockResponse`), the four matching predicates,
the registry `State`, and the dispatcher `handle_request` with its
administrative handlers.  Responses are modelled as the exact strings the
server writes to the stream.  External collaborators (the `Matcher` and
`Request` types declared outside `src/`, serde serialization, and the
`Display` rendering of a request) are modelled from the spec and marked as
such in their doc comments.
-/

/-- Modelled from the spec: the `Matcher` value type (declared outside
`src/`).  `exact` compares by literal equality, `regex` tests a full match of
the compiled pattern (the compiled pattern is carried abstractly as its
full-match predicate), `missing` denotes required absence. -/
inductive Matcher where
  | exact (s : String)
  | regex (fullMatch : String → Bool)
  | missing

/-- Modelled from the spec: equality of a `Matcher` against a present observed
string (the `PartialEq` impl declared outside `src/`): `exact` is literal
equality, `regex` is a full match of the pattern, and `missing` is never equal
to a present string. -/
def Matcher.matchesValue : Matcher → String → Bool
  | .exact e, s => e == s
  | .regex r, s => r s
  | .missing, _ => false

/-- Modelled from the spec: the test `value == &Matcher::Missing` performed by
`headers_match` (src/server.rs line 38); only the `missing` constructor is
equal to `missing`. -/
def Matcher.eqMissing : Matcher → Bool
  | .missing => true
  | _ => false

/-- Modelled from the spec: the canned `MockResponse` carried by a registered
mock (status line, ordered header pairs, body). -/
structure MockResponse where
  status : String
  headers : List (String × String)
  body : String

/-- The registered mock record (`RemoteMock`, src/server.rs lines 8-18).
`hits` and `expected_hits` are `usize` counters, modelled as `Nat`. -/
structure RemoteMock where
  id : String
  method : String
  path : Matcher
  headers : List (String × Matcher)
  body : Matcher
  response : MockResponse
  hits : Nat
  expected_hits : Nat

/-- Modelled from the spec: the parsed `Request` (external type produced by
the transport): method, path, ordered header pairs, and the body.  The body is
carried as the string obtained by UTF-8-lossy decoding of the raw bytes (the
byte-level framing and the lossy decoder are external). -/
structure Request where
  method : String
  path : String
  headers : List (String × String)
  body : String

/-- Modelled from the spec: `Request::find_header` (declared outside `src/`):
case-insensitive lookup of a header name, returning the first matching pair's
value.  The case folding is modelled character-wise with `Char.toLower`. -/
def Request.find_header (r : Request) (field : String) : Option String :=
  (r.headers.find? fun p =>
    p.1.data.map Char.toLower == field.data.map Char.toLower).map Prod.snd

/-- Modelled from the spec: the human-readable rendering of a `Request` (its
`Display` impl is declared outside `src/`): the request line, the headers, and
the body. -/
def Request.render (r : Request) : String :=
  r.method ++ " " ++ r.path ++ "\r\n"
    ++ String.join (r.headers.map fun p => p.1 ++ ": " ++ p.2 ++ "\r\n")
    ++ "\r\n" ++ r.body

/-- `RemoteMock::method_matches` (src/server.rs lines 21-23): exact
case-sensitive string equality. -/
def RemoteMock.method_matches (m : RemoteMock) (r : Request) : Bool :=
  m.method == r.method

/-- `RemoteMock::path_matches` (src/server.rs lines 25-27): `Matcher` equality
against the request path. -/
def RemoteMock.path_matches (m : RemoteMock) (r : Request) : Bool :=
  m.path.matchesValue r.path

/-- `RemoteMock::headers_match` (src/server.rs lines 29-46): every declared
`(field, matcher)` pair must be satisfied; a found header value is compared by
`Matcher` equality, an absent header requires the matcher to be exactly
`missing`. -/
def RemoteMock.headers_match (m : RemoteMock) (r : Request) : Bool :=
  m.headers.all fun p =>
    match r.find_header p.1 with
    | some request_header_value => p.2.matchesValue request_header_value
    | none => p.2.eqMissing

/-- `RemoteMock::body_matches` (src/server.rs lines 48-50): `Matcher` equality
against the UTF-8-lossy decoded request body. -/
def RemoteMock.body_matches (m : RemoteMock) (r : Request) : Bool :=
  m.body.matchesValue r.body

/-- The `PartialEq<Request>` impl for `&mut RemoteMock` (src/server.rs lines
53-60): the conjunction of the four predicates. -/
def RemoteMock.matchesRequest (m : RemoteMock) (r : Request) : Bool :=
  m.method_matches r && m.path_matches r && m.headers_match r && m.body_matches r

/-- The registry `State` (src/server.rs lines 62-65): the ordered mock
sequence and the append-only unmatched-request log. -/
structure State where
  mocks : List RemoteMock
  unmatched_requests : List Request

/-- `serde_json::to_string` applied to a `RemoteMock` in `handle_get_mock`.
Modelled from the spec: the JSON serialization of a mock; the exact tagging
convention is an implementation choice, so the model renders every field,
including the current `hits` value, in a fixed readable shape. -/
def serializeMatcher : Matcher → String
  | .exact s => "exact:" ++ s
  | .regex _ => "regex:<pattern>"
  | .missing => "missing"

/-- Serialization of the header-matcher list, part of `serializeMock`. -/
def serializeHeaderMatchers (hs : List (String × Matcher)) : String :=
  String.join (hs.map fun p => "(" ++ p.1 ++ "," ++ serializeMatcher p.2 ++ ")")

/-- Serialization of the canned response, part of `serializeMock`. -/
def serializeResponse (resp : MockResponse) : String :=
  "status=" ++ resp.status
    ++ ";headers=" ++ String.join (resp.headers.map fun p => "(" ++ p.1 ++ "," ++ p.2 ++ ")")
    ++ ";body=" ++ resp.body

/-- Modelled from the spec: the serialized `RemoteMock` returned by
fetch-by-id, rendering every field including the current `hits` value. -/
def serializeMock (m : RemoteMock) : String :=
  "id=" ++ m.id
    ++ ";method=" ++ m.method
    ++ ";path=" ++ serializeMatcher m.path
    ++ ";headers=" ++ serializeHeaderMatchers m.headers
    ++ ";body=" ++ serializeMatcher m.body
    ++ ";response=" ++ serializeResponse m.response
    ++ ";hits=" ++ toString m.hits
    ++ ";expected_hits=" ++ toString m.expected_hits

/-- `handle_get_mock` (src/server.rs lines 144-155): find the first mock with
the given id; serialize it into a 200 response with a `content-length` header,
or answer a bare 404.  The state is returned unchanged. -/
def handle_get_mock (state : State) (mock_id : String) : State × String :=
  match state.mocks.find? (fun mock => mock.id == mock_id) with
  | some mock =>
      let body := serializeMock mock
      (state, "HTTP/1.1 200 OK\r\ncontent-length: " ++ toString body.utf8ByteSize
        ++ "\r\n\r\n" ++ body)
  | none => (state, "HTTP/1.1 404 Not Found\r\n\r\n")

/-- `handle_post_mock` (src/server.rs lines 157-169).  The decoder
(`serde_json::from_slice::<RemoteMock>`) is external; the handler receives its
outcome: on success the decoded mock is pushed onto the mock sequence and a
bare 200 is written, on failure a 422 carrying the decoder's diagnostic
message is written and the state is untouched. -/
def handle_post_mock (state : State) (decoded : Except String RemoteMock) :
    State × String :=
  match decoded with
  | .ok mock =>
      ({ state with mocks := state.mocks ++ [mock] }, "HTTP/1.1 200 OK\r\n\r\n")
  | .error err =>
      let message := err
      (state, "HTTP/1.1 422 Unprocessable Entity\r\ncontent-length: "
        ++ toString message.utf8ByteSize ++ "\r\n\r\n" ++ message)

/-- `handle_delete_mocks` (src/server.rs lines 171-174): clear the mock
sequence and write a bare 200. -/
def handle_delete_mocks (state : State) : State × String :=
  ({ state with mocks := [] }, "HTTP/1.1 200 OK\r\n\r\n")

/-- `handle_delete_mock` (src/server.rs lines 176-186): remove the mock at the
position of the first id match and write a bare 200, or write a bare 404. -/
def handle_delete_mock (state : State) (mock_id : String) : State × String :=
  match state.mocks.findIdx? (fun mock => mock.id == mock_id) with
  | some pos =>
      ({ state with mocks := state.mocks.eraseIdx pos }, "HTTP/1.1 200 OK\r\n\r\n")
  | none => (state, "HTTP/1.1 404 Not Found\r\n\r\n")

/-- `handle_last_unmatched_request` (src/server.rs lines 188-196): render the
last element of the unmatched-request log (or the empty string) into a 200
response with a `content-length` header. -/
def handle_last_unmatched_request (state : State) : State × String :=
  let body := match state.unmatched_requests.getLast? with
    | some request => request.render
    | none => ""
  (state, "HTTP/1.1 200 OK\r\ncontent-length: " ++ toString body.utf8ByteSize
    ++ "\r\n\r\n" ++ body)

/-- The canned response string built on a match (src/server.rs lines 203-213):
status line from the mock's response status, a `content-length` header from
the byte length of the response body, the declared headers verbatim in order,
then the body. -/
def cannedResponse (m : RemoteMock) : String :=
  "HTTP/1.1 " ++ m.response.status
    ++ "\r\ncontent-length: " ++ toString m.response.body.utf8ByteSize ++ "\r\n"
    ++ String.join (m.response.headers.map fun p => p.1 ++ ": " ++ p.2 ++ "\r\n")
    ++ "\r\n" ++ m.response.body

/-- The reverse-order search-and-update of `handle_match_mock`
(`state.mocks.iter_mut().rev().find(|mock| mock == &request)` followed by the
in-place `mock.hits = mock.hits + 1`): a right-to-left scan that increments
the hit counter of the last matching element and also returns that updated
element; `none` when no element matches. -/
def matchAndBump (r : Request) : List RemoteMock → Option (List RemoteMock × RemoteMock)
  | [] => none
  | m :: ms =>
      match matchAndBump r ms with
      | some (ms2, found) => some (m :: ms2, found)
      | none =>
          if m.matchesRequest r then
            some ({ m with hits := m.hits + 1 } :: ms, { m with hits := m.hits + 1 })
          else none

/-- `handle_match_mock` (src/server.rs lines 198-220): scan the mocks in
reverse insertion order; on a match bump that mock's `hits` and write its
canned response, otherwise append the request to the unmatched log and write a
bare 501. -/
def handle_match_mock (state : State) (request : Request) : State × String :=
  match matchAndBump request state.mocks with
  | some (mocks2, mock) => ({ state with mocks := mocks2 }, cannedResponse mock)
  | none =>
      ({ state with unmatched_requests := state.unmatched_requests ++ [request] },
        "HTTP/1.1 501 Not Implemented\r\n\r\n")

/-- Literal-prefix stripping over character lists: `stripRoute p l` is
`some rest` when `l = p ++ rest`, and `none` when `p` is not a literal prefix
of `l`.  This is the anchored literal part of the route regexes. -/
def stripRoute : List Char → List Char → Option (List Char)
  | [], rest => some rest
  | _ :: _, [] => none
  | p :: ps, c :: cs => if p == c then stripRoute ps cs else none

/-- The character class `\w` of the route patterns `GET_MOCK_REGEX` and
`DELETE_MOCK_REGEX` (src/server.rs lines 112 and 115).  The regex crate's
`\w` is Unicode-aware; this embedding is exact on code points below U+0100
(the ASCII word characters plus the Latin-1 alphabetic code points U+00AA,
U+00B5, U+00BA, U+00C0-U+00D6, U+00D8-U+00F6, U+00F8-U+00FF) and is false
above U+00FF, where the real class contains further word characters (for
example U+0100).  Fall-through statements about the routes are therefore
made only for ids whose characters lie below U+0100. -/
def wordChar (c : Char) : Bool :=
  (('a' ≤ c && c ≤ 'z') || ('A' ≤ c && c ≤ 'Z') || ('0' ≤ c && c ≤ '9') || c == '_')
    || (c.toNat == 0xAA || c.toNat == 0xB5 || c.toNat == 0xBA
        || (0xC0 ≤ c.toNat && c.toNat ≤ 0xFF && c.toNat != 0xD7 && c.toNat != 0xF7))

/-- A route pattern of the form `^pre(\w+)$`: the line must start with the
literal `pre` and the remainder, the captured `mock_id`, must be a nonempty
run of word characters reaching the end of the line. -/
def wordCapture (pre l : List Char) : Option (List Char) :=
  match stripRoute pre l with
  | some rest => if !rest.isEmpty && rest.all wordChar then some rest else none
  | none => none

/-- `handle_request` (src/server.rs lines 110-142): the request line
`method ++ " " ++ path` is tried against the five administrative route
patterns in order (`^GET /mockito/mocks/(\w+)$`, `^POST /mockito/mocks$`,
`^DELETE /mockito/mocks$`, `^DELETE /mockito/mocks/(\w+)$`,
`^GET /mockito/last_unmatched_request$`); the first match wins, and a request
matching none of them falls through to `handle_match_mock`.  The external
mock decoder is passed in as `decode`. -/
def handle_request (decode : String → Except String RemoteMock)
    (state : State) (request : Request) : State × String :=
  let request_line := (request.method ++ " " ++ request.path).data
  match wordCapture ("GET /mockito/mocks/").data request_line with
  | some mock_id => handle_get_mock state (String.mk mock_id)
  | none =>
    if request_line = ("POST /mockito/mocks").data then
      handle_post_mock state (decode request.body)
    else if request_line = ("DELETE /mockito/mocks").data then
      handle_delete_mocks state
    else
      match wordCapture ("DELETE /mockito/mocks/").data request_line with
      | some mock_id => handle_delete_mock state (String.mk mock_id)
      | none =>
        if request_line = ("GET /mockito/last_unmatched_request").data then
          handle_last_unmatched_request state
        else
          handle_match_mock state request

/-- Substring occurrence over character lists: `containsSeq p s` holds when
`p` occurs contiguously somewhere in `s`. -/
def containsSeq (p : List Char) : List Char → Bool
  | [] => p.isEmpty
  | c :: rest => p.isPrefixOf (c :: rest) || containsSeq p rest

/-- Sample canned response used by the concrete witness instances. -/
def sampleResponseA : MockResponse :=
  { status := "200 OK", headers := [("x-hdr", "v")], body := "AAA" }

/-- Second sample canned response, distinguishable from `sampleResponseA`. -/
def sampleResponseB : MockResponse :=
  { status := "201 Created", headers := [], body := "BB" }

/-- Sample mock matching `GET /x` with an empty body. -/
def sampleMockA : RemoteMock :=
  { id := "a1", method := "GET", path := .exact "/x", headers := [],
    body := .exact "", response := sampleResponseA, hits := 0, expected_hits := 1 }

/-- Second sample mock matching the same requests as `sampleMockA`. -/
def sampleMockB : RemoteMock :=
  { id := "b2", method := "GET", path := .exact "/x", headers := [],
    body := .exact "", response := sampleResponseB, hits := 0, expected_hits := 1 }

/-- Sample request satisfying both sample mocks. -/
def sampleRequest : Request :=
  { method := "GET", path := "/x", headers := [], body := "" }

/-- Sample external decoder that always fails. -/
def sampleDecode : String → Except String RemoteMock := fun _ => .error "sample"

/-- Sample decoded mock whose registration body carries a nonzero `hits`
field. -/
def presetHitsMock : RemoteMock :=
  { sampleMockA with id := "preset", hits := 5 }

/-- Sample mock declaring a `missing` header pair next to a second, exact
header pair. -/
def missingPairMock : RemoteMock :=
  { sampleMockA with
    id := "miss"
    headers := [("a", Matcher.missing), ("b", Matcher.exact "x")] }

/-- Sample mock whose only declared header pair is `("a", missing)`. -/
def onlyMissingMock : RemoteMock :=
  { sampleMockA with id := "onlymiss", headers := [("a", Matcher.missing)] }

/-- Sample request supplying header `a` with the empty string as value. -/
def emptyHeaderRequest : Request :=
  { sampleRequest with headers := [("a", "")] }

/-- Sample request whose path carries a non-ASCII word character as mock id. -/
def unicodeIdRequest : Request :=
  { method := "GET", path := "/mockito/mocks/é", headers := [], body := "" }

/-- The ASCII word-character class `[A-Za-z0-9_]`, stated from the claim's
words for comparison with the `\w` class (`wordChar`) actually used by the
route patterns. -/
def asciiWordChar (c : Char) : Bool :=
  ('a' ≤ c && c ≤ 'z') || ('A' ≤ c && c ≤ 'Z') || ('0' ≤ c && c ≤ '9') || c == '_'

/-!
Helper lemmas about the embedded operations.
-/

theorem stripRoute_append (p r : List Char) : stripRoute p (p ++ r) = some r := by
  induction p with
  | nil => rfl
  | cons c cs ih => simp [stripRoute, ih]

theorem matchAndBump_eq_none (r : Request) (l : List RemoteMock)
    (h : ∀ m ∈ l, m.matchesRequest r = false) : matchAndBump r l = none := by
  induction l with
  | nil => rfl
  | cons m ms ih =>
      simp only [matchAndBump]
      rw [ih fun x hx => h x (List.mem_cons_of_mem _ hx)]
      simp [h m (List.mem_cons_self _ _)]

theorem matchAndBump_split (r : Request) (pre : List RemoteMock) (m : RemoteMock)
    (post : List RemoteMock) (hm : m.matchesRequest r = true)
    (hpost : ∀ x ∈ post, x.matchesRequest r = false) :
    matchAndBump r (pre ++ m :: post) =
      some (pre ++ { m with hits := m.hits + 1 } :: post, { m with hits := m.hits + 1 }) := by
  induction pre with
  | nil =>
      simp only [List.nil_append, matchAndBump]
      rw [matchAndBump_eq_none r post hpost]
      simp [hm]
  | cons a as ih =>
      simp only [List.cons_append, matchAndBump, List.append_eq]
      rw [ih]

theorem handle_request_fallthrough (decode : String → Except String RemoteMock)
    (st : State) (r : Request)
    (h1 : wordCapture ("GET /mockito/mocks/").data (r.method ++ " " ++ r.path).data = none)
    (h2 : ¬ (r.method ++ " " ++ r.path).data = ("POST /mockito/mocks").data)
    (h3 : ¬ (r.method ++ " " ++ r.path).data = ("DELETE /mockito/mocks").data)
    (h4 : wordCapture ("DELETE /mockito/mocks/").data (r.method ++ " " ++ r.path).data = none)
    (h5 : ¬ (r.method ++ " " ++ r.path).data = ("GET /mockito/last_unmatched_request").data) :
    handle_request decode st r = handle_match_mock st r := by
  simp only [handle_request]
  rw [h1]
  dsimp only
  rw [if_neg h2, if_neg h3, h4]
  dsimp only
  rw [if_neg h5]

theorem find_first_split {α : Type} (p : α → Bool) (pre : List α) (x : α) (post : List α)
    (hpre : ∀ y ∈ pre, p y = false) (hx : p x = true) :
    (pre ++ x :: post).find? p = some x := by
  induction pre with
  | nil => simp [List.find?_cons, hx]
  | cons a as ih =>
      have ha : p a = false := hpre a (List.mem_cons_self _ _)
      simp only [List.cons_append, List.find?_cons, ha]
      exact ih fun y hy => hpre y (List.mem_cons_of_mem _ hy)

theorem findIdx_first_split {α : Type} (p : α → Bool) (pre : List α) (x : α) (post : List α)
    (hpre : ∀ y ∈ pre, p y = false) (hx : p x = true) :
    (pre ++ x :: post).findIdx? p = some pre.length := by
  induction pre with
  | nil => simp [List.findIdx?_cons, hx]
  | cons a as ih =>
      have ha : p a = false := hpre a (List.mem_cons_self _ _)
      simp [List.findIdx?_cons, ha, ih fun y hy => hpre y (List.mem_cons_of_mem _ hy)]

theorem eraseIdx_at_split {α : Type} (pre : List α) (x : α) (post : List α) :
    (pre ++ x :: post).eraseIdx pre.length = pre ++ post := by
  induction pre with
  | nil => simp [List.eraseIdx]
  | cons a as ih => simp [List.eraseIdx, ih]

/-!
Claim theorems.
-/

/-- C1: for every request that matches no administrative route, the dispatcher
scans the registered mock sequence in reverse insertion order and replies with
the canned response of the first mock for which all four predicates hold; in
particular, of two registered mocks that both satisfy the request, the more
recently registered one's response is returned. -/
theorem C1_reverse_scan_last_registered_wins
    (decode : String → Except String RemoteMock) (st : State) (r : Request)
    (h1 : wordCapture ("GET /mockito/mocks/").data (r.method ++ " " ++ r.path).data = none)
    (h2 : ¬ (r.method ++ " " ++ r.path).data = ("POST /mockito/mocks").data)
    (h3 : ¬ (r.method ++ " " ++ r.path).data = ("DELETE /mockito/mocks").data)
    (h4 : wordCapture ("DELETE /mockito/mocks/").data (r.method ++ " " ++ r.path).data = none)
    (h5 : ¬ (r.method ++ " " ++ r.path).data = ("GET /mockito/last_unmatched_request").data)
    (pre post : List RemoteMock) (m : RemoteMock)
    (hmocks : st.mocks = pre ++ m :: post)
    (hm : m.matchesRequest r = true)
    (hpost : ∀ x ∈ post, x.matchesRequest r = false) :
    (handle_request decode st r).2 = cannedResponse m := by
  rw [handle_request_fallthrough decode st r h1 h2 h3 h4 h5]
  simp only [handle_match_mock, hmocks]
  rw [matchAndBump_split r pre m post hm hpost]
  rfl

theorem C1_witness :
    sampleMockB.matchesRequest sampleRequest = true ∧
    (handle_request sampleDecode ⟨[sampleMockA, sampleMockB], []⟩ sampleRequest).2
      = cannedResponse sampleMockB :=
  ⟨by decide,
    C1_reverse_scan_last_registered_wins sampleDecode ⟨[sampleMockA, sampleMockB], []⟩
      sampleRequest (by decide) (by decide) (by decide) (by decide) (by decide)
      [sampleMockA] [] sampleMockB rfl (by decide) (by simp)⟩

/-- C5: when a request is satisfied by a registered mock, exactly that mock's
hits counter increases by exactly 1 and everything else in the registry is
unchanged: every other mock, every other field of the matched mock, and the
unmatched-requests log. -/
theorem C5_match_increments_only_hit_counter (st : State) (r : Request)
    (pre post : List RemoteMock) (m : RemoteMock)
    (hmocks : st.mocks = pre ++ m :: post)
    (hm : m.matchesRequest r = true)
    (hpost : ∀ x ∈ post, x.matchesRequest r = false) :
    (handle_match_mock st r).1.mocks = pre ++ { m with hits := m.hits + 1 } :: post ∧
    (handle_match_mock st r).1.unmatched_requests = st.unmatched_requests ∧
    (handle_match_mock st r).2 = cannedResponse m := by
  simp only [handle_match_mock, hmocks]
  rw [matchAndBump_split r pre m post hm hpost]
  exact ⟨rfl, rfl, rfl⟩

theorem C5_witness :
    sampleMockB.matchesRequest sampleRequest = true ∧
    (handle_match_mock ⟨[sampleMockA, sampleMockB], []⟩ sampleRequest).1.mocks
      = [sampleMockA, { sampleMockB with hits := sampleMockB.hits + 1 }] ∧
    (handle_match_mock ⟨[sampleMockA, sampleMockB], []⟩ sampleRequest).1.unmatched_requests
      = [] :=
  ⟨by decide,
    (C5_match_increments_only_hit_counter ⟨[sampleMockA, sampleMockB], []⟩ sampleRequest
      [sampleMockA] [] sampleMockB rfl (by decide) (by simp)).1,
    (C5_match_increments_only_hit_counter ⟨[sampleMockA, sampleMockB], []⟩ sampleRequest
      [sampleMockA] [] sampleMockB rfl (by decide) (by simp)).2.1⟩

/-- C6: for every non-administrative request satisfied by no registered mock,
the server responds 501 with an empty body and appends the request to the
unmatched-requests log; afterwards `GET /mockito/last_unmatched_request`
responds 200 with a rendering of the most recently recorded unmatched request,
and an empty body when none was ever recorded. -/
theorem C6_no_match_501_and_retrievable
    (decode : String → Except String RemoteMock) (st : State) (r : Request)
    (h1 : wordCapture ("GET /mockito/mocks/").data (r.method ++ " " ++ r.path).data = none)
    (h2 : ¬ (r.method ++ " " ++ r.path).data = ("POST /mockito/mocks").data)
    (h3 : ¬ (r.method ++ " " ++ r.path).data = ("DELETE /mockito/mocks").data)
    (h4 : wordCapture ("DELETE /mockito/mocks/").data (r.method ++ " " ++ r.path).data = none)
    (h5 : ¬ (r.method ++ " " ++ r.path).data = ("GET /mockito/last_unmatched_request").data)
    (hnone : ∀ m ∈ st.mocks, m.matchesRequest r = false) :
    (handle_request decode st r).2 = "HTTP/1.1 501 Not Implemented\r\n\r\n" ∧
    (handle_request decode st r).1.unmatched_requests = st.unmatched_requests ++ [r] ∧
    (handle_request decode st r).1.mocks = st.mocks ∧
    (∀ (hs : List (String × String)) (bd : String),
      handle_request decode (handle_request decode st r).1
          ⟨"GET", "/mockito/last_unmatched_request", hs, bd⟩
        = handle_last_unmatched_request (handle_request decode st r).1) ∧
    (handle_last_unmatched_request (handle_request decode st r).1).2
      = "HTTP/1.1 200 OK\r\ncontent-length: " ++ toString r.render.utf8ByteSize
        ++ "\r\n\r\n" ++ r.render ∧
    (∀ st0 : State, st0.unmatched_requests = [] →
      (handle_last_unmatched_request st0).2
        = "HTTP/1.1 200 OK\r\ncontent-length: 0\r\n\r\n") := by
  have hft := handle_request_fallthrough decode st r h1 h2 h3 h4 h5
  have hmb := matchAndBump_eq_none r st.mocks hnone
  rw [hft]
  refine ⟨?_, ?_, ?_, ?_, ?_, ?_⟩
  · simp only [handle_match_mock]
    rw [hmb]
  · simp only [handle_match_mock]
    rw [hmb]
  · simp only [handle_match_mock]
    rw [hmb]
  · intro hs bd
    rfl
  · simp only [handle_match_mock]
    rw [hmb]
    simp [handle_last_unmatched_request, List.getLast?_concat]
  · intro st0 h0
    simp [handle_last_unmatched_request, h0]
    decide

theorem C6_witness :
    (handle_request sampleDecode ⟨[], []⟩ sampleRequest).2
      = "HTTP/1.1 501 Not Implemented\r\n\r\n" ∧
    (handle_request sampleDecode ⟨[], []⟩ sampleRequest).1.unmatched_requests
      = [sampleRequest] ∧
    (handle_last_unmatched_request (handle_request sampleDecode ⟨[], []⟩ sampleRequest).1).2
      = "HTTP/1.1 200 OK\r\ncontent-length: " ++ toString sampleRequest.render.utf8ByteSize
        ++ "\r\n\r\n" ++ sampleRequest.render :=
  ⟨(C6_no_match_501_and_retrievable sampleDecode ⟨[], []⟩ sampleRequest
      (by decide) (by decide) (by decide) (by decide) (by decide) (by simp)).1,
    (C6_no_match_501_and_retrievable sampleDecode ⟨[], []⟩ sampleRequest
      (by decide) (by decide) (by decide) (by decide) (by decide) (by simp)).2.1,
    (C6_no_match_501_and_retrievable sampleDecode ⟨[], []⟩ sampleRequest
      (by decide) (by decide) (by decide) (by decide) (by decide) (by simp)).2.2.2.2.1⟩

/-- C7: a registration request whose body decodes as a mock record appends the
mock to the end of the mock sequence, with no uniqueness check, and is
answered 200 with an empty body; a body that fails to decode is answered 422
carrying the decoder's diagnostic message, with the state left unchanged. -/
theorem C7_register_append_or_422 :
    (∀ (decode : String → Except String RemoteMock) (st : State)
        (hs : List (String × String)) (bd : String),
      handle_request decode st ⟨"POST", "/mockito/mocks", hs, bd⟩
        = handle_post_mock st (decode bd)) ∧
    (∀ (st : State) (m : RemoteMock),
      handle_post_mock st (.ok m)
        = ({ st with mocks := st.mocks ++ [m] }, "HTTP/1.1 200 OK\r\n\r\n")) ∧
    (∀ (st : State) (e : String),
      handle_post_mock st (.error e)
        = (st, "HTTP/1.1 422 Unprocessable Entity\r\ncontent-length: "
            ++ toString e.utf8ByteSize ++ "\r\n\r\n" ++ e)) :=
  ⟨fun _ _ _ _ => rfl, fun _ _ => rfl, fun _ _ => rfl⟩

/-- C3 counterexample: a registration whose decoded body carries `hits = 5` is
accepted with a 200 and stored with `hits = 5`, so a freshly registered mock
need not have a zero hit counter. -/
theorem C3_counterexample :
    (handle_post_mock ⟨[], []⟩ (.ok presetHitsMock)).1.mocks.map RemoteMock.hits = [5] ∧
    (handle_post_mock ⟨[], []⟩ (.ok presetHitsMock)).2 = "HTTP/1.1 200 OK\r\n\r\n" :=
  ⟨rfl, rfl⟩

/-- C3 amended: the registered mock is stored exactly as decoded, so its hits
counter equals the `hits` value carried by the registration body rather than
being reset to 0; a caller that sends `hits = 0` gets a mock whose counter is
0 before any request has matched it. -/
theorem C3_register_stores_decoded_hits_verbatim (st : State) (m : RemoteMock) :
    (handle_post_mock st (.ok m)).1.mocks = st.mocks ++ [m] ∧
    (handle_post_mock st (.ok m)).1.mocks.getLast? = some m := by
  refine ⟨rfl, ?_⟩
  simp [handle_post_mock, List.getLast?_concat]

/-- C8: fetch-by-id answers 200 with the serialization of the first mock in
stored order whose id matches, including its current hits value (the
serialization model renders every field), answers 404 when no mock has that
id, and leaves the registry state unchanged in both cases. -/
theorem C8_get_mock_first_id_match (st : State) (mock_id : String) :
    (∀ (pre post : List RemoteMock) (m : RemoteMock),
      st.mocks = pre ++ m :: post → (∀ x ∈ pre, x.id ≠ mock_id) → m.id = mock_id →
      handle_get_mock st mock_id
        = (st, "HTTP/1.1 200 OK\r\ncontent-length: "
            ++ toString (serializeMock m).utf8ByteSize ++ "\r\n\r\n" ++ serializeMock m)) ∧
    ((∀ x ∈ st.mocks, x.id ≠ mock_id) →
      handle_get_mock st mock_id = (st, "HTTP/1.1 404 Not Found\r\n\r\n")) := by
  constructor
  · intro pre post m hmocks hpre hm
    have hfind : st.mocks.find? (fun mock => mock.id == mock_id) = some m := by
      rw [hmocks]
      refine find_first_split _ pre m post (fun y hy => ?_) (by simp [hm])
      simp [beq_eq_false_iff_ne, hpre y hy]
    simp [handle_get_mock, hfind]
  · intro habs
    have hfind : st.mocks.find? (fun mock => mock.id == mock_id) = none := by
      rw [List.find?_eq_none]
      intro x hx
      simp [habs x hx]
    simp [handle_get_mock, hfind]

theorem C8_witness :
    handle_get_mock ⟨[sampleMockA, sampleMockB], []⟩ "b2"
      = (⟨[sampleMockA, sampleMockB], []⟩,
          "HTTP/1.1 200 OK\r\ncontent-length: "
            ++ toString (serializeMock sampleMockB).utf8ByteSize ++ "\r\n\r\n"
            ++ serializeMock sampleMockB) ∧
    handle_get_mock ⟨[sampleMockA, sampleMockB], []⟩ "zz"
      = (⟨[sampleMockA, sampleMockB], []⟩, "HTTP/1.1 404 Not Found\r\n\r\n") :=
  ⟨(C8_get_mock_first_id_match ⟨[sampleMockA, sampleMockB], []⟩ "b2").1
      [sampleMockA] [] sampleMockB rfl (by decide) rfl,
    (C8_get_mock_first_id_match ⟨[sampleMockA, sampleMockB], []⟩ "zz").2 (by decide)⟩

/-- C9: delete-by-id removes exactly the first mock in stored order whose id
matches and answers 200, preserving the relative order of all surviving
mocks; when no mock has that id it answers 404 and the mock sequence is
unchanged. -/
theorem C9_delete_mock_first_id_match (st : State) (mock_id : String) :
    (∀ (pre post : List RemoteMock) (m : RemoteMock),
      st.mocks = pre ++ m :: post → (∀ x ∈ pre, x.id ≠ mock_id) → m.id = mock_id →
      handle_delete_mock st mock_id
        = ({ st with mocks := pre ++ post }, "HTTP/1.1 200 OK\r\n\r\n")) ∧
    ((∀ x ∈ st.mocks, x.id ≠ mock_id) →
      handle_delete_mock st mock_id = (st, "HTTP/1.1 404 Not Found\r\n\r\n")) := by
  constructor
  · intro pre post m hmocks hpre hm
    have hidx : st.mocks.findIdx? (fun mock => mock.id == mock_id) = some pre.length := by
      rw [hmocks]
      refine findIdx_first_split _ pre m post (fun y hy => ?_) (by simp [hm])
      simp [beq_eq_false_iff_ne, hpre y hy]
    simp only [handle_delete_mock, hidx]
    rw [hmocks, eraseIdx_at_split]
  · intro habs
    have hidx : st.mocks.findIdx? (fun mock => mock.id == mock_id) = none := by
      rw [List.findIdx?_eq_none_iff]
      intro x hx
      simp [habs x hx]
    simp [handle_delete_mock, hidx]

theorem C9_witness :
    handle_delete_mock ⟨[sampleMockA, sampleMockB], []⟩ "a1"
      = (⟨[sampleMockB], []⟩, "HTTP/1.1 200 OK\r\n\r\n") ∧
    handle_delete_mock ⟨[sampleMockA, sampleMockB], []⟩ "zz"
      = (⟨[sampleMockA, sampleMockB], []⟩, "HTTP/1.1 404 Not Found\r\n\r\n") :=
  ⟨(C9_delete_mock_first_id_match ⟨[sampleMockA, sampleMockB], []⟩ "a1").1
      [] [sampleMockB] sampleMockA rfl (by simp) rfl,
    (C9_delete_mock_first_id_match ⟨[sampleMockA, sampleMockB], []⟩ "zz").2 (by decide)⟩

/-- C4 counterexample: a mock declaring the pair `("a", missing)` next to a
second pair `("b", exact "x")`, matched against a request from which header
`a` is entirely absent: the headers predicate nevertheless fails, so "the
headers predicate holds iff the named header is entirely absent" is false as
stated for mocks with further header pairs. -/
theorem C4_counterexample :
    ("a", Matcher.missing) ∈ missingPairMock.headers ∧
    sampleRequest.find_header "a" = none ∧
    missingPairMock.headers_match sampleRequest = false :=
  ⟨List.mem_cons_self _ _, rfl, rfl⟩

/-- C4 amended: a declared pair `(field, missing)` is satisfied exactly when
the named header is entirely absent: if the request supplies that header with
any value, including the empty string, the headers predicate fails; and for a
mock whose only declared pair is `(field, missing)` the headers predicate
holds iff the header is absent. -/
theorem C4_missing_header_semantics (m : RemoteMock) (r : Request) (field : String) :
    ((field, Matcher.missing) ∈ m.headers →
      ∀ v, r.find_header field = some v → m.headers_match r = false) ∧
    (m.headers = [(field, Matcher.missing)] →
      (m.headers_match r = true ↔ r.find_header field = none)) := by
  constructor
  · intro hmem v hv
    rw [RemoteMock.headers_match]
    rw [List.all_eq_false]
    refine ⟨(field, Matcher.missing), hmem, ?_⟩
    simp [hv, Matcher.matchesValue]
  · intro hh
    rw [RemoteMock.headers_match, hh]
    cases hfind : r.find_header field with
    | some v => simp [hfind, Matcher.matchesValue]
    | none => simp [hfind, Matcher.eqMissing]

theorem C4_witness :
    onlyMissingMock.headers_match emptyHeaderRequest = false ∧
    onlyMissingMock.headers_match sampleRequest = true :=
  ⟨(C4_missing_header_semantics onlyMissingMock emptyHeaderRequest "a").1
      (List.mem_cons_self _ _) "" (by decide),
    ((C4_missing_header_semantics onlyMissingMock sampleRequest "a").2 rfl).mpr (by decide)⟩

/-- C2 counterexample: the register/delete success, 404 and 501 responses are
fixed strings with an empty body and no `content-length` header at all, so
"every HTTP response written by the server carries a content-length header"
fails already at the delete-all success response. -/
theorem C2_counterexample :
    (handle_delete_mocks ⟨[], []⟩).2 = "HTTP/1.1 200 OK\r\n\r\n" ∧
    containsSeq ("content-length").data ((handle_delete_mocks ⟨[], []⟩).2).data = false :=
  ⟨rfl, by decide⟩

/-- C2 amended: the responses built with a body slot (fetch-mock 200, register
422, last-unmatched 200, matched-mock replay) carry a `content-length` whose
value is the byte length of the body appended to them, while the fixed
empty-body responses (register success, delete success, delete-all success,
404, 501) are written without any `content-length` header. -/
theorem C2_content_length_on_body_responses :
    (∀ st : State, (handle_delete_mocks st).2 = "HTTP/1.1 200 OK\r\n\r\n") ∧
    (∀ (st : State) (m : RemoteMock),
      (handle_post_mock st (.ok m)).2 = "HTTP/1.1 200 OK\r\n\r\n") ∧
    (∀ (st : State) (mock_id : String),
      (handle_delete_mock st mock_id).2 = "HTTP/1.1 200 OK\r\n\r\n" ∨
      (handle_delete_mock st mock_id).2 = "HTTP/1.1 404 Not Found\r\n\r\n") ∧
    containsSeq ("content-length").data ("HTTP/1.1 200 OK\r\n\r\n").data = false ∧
    containsSeq ("content-length").data ("HTTP/1.1 404 Not Found\r\n\r\n").data = false ∧
    containsSeq ("content-length").data ("HTTP/1.1 501 Not Implemented\r\n\r\n").data = false ∧
    (∀ (st : State) (e : String),
      (handle_post_mock st (.error e)).2
        = "HTTP/1.1 422 Unprocessable Entity\r\ncontent-length: "
            ++ toString e.utf8ByteSize ++ "\r\n\r\n" ++ e) ∧
    (∀ (st : State) (mock_id : String),
      (handle_get_mock st mock_id).2 = "HTTP/1.1 404 Not Found\r\n\r\n" ∨
      ∃ m ∈ st.mocks, (handle_get_mock st mock_id).2
        = "HTTP/1.1 200 OK\r\ncontent-length: "
            ++ toString (serializeMock m).utf8ByteSize ++ "\r\n\r\n" ++ serializeMock m) ∧
    (∀ st : State, ∃ b : String,
      (handle_last_unmatched_request st).2
        = "HTTP/1.1 200 OK\r\ncontent-length: "
            ++ toString b.utf8ByteSize ++ "\r\n\r\n" ++ b) ∧
    (∀ (st : State) (r : Request),
      (handle_match_mock st r).2 = "HTTP/1.1 501 Not Implemented\r\n\r\n" ∨
      ∃ m : RemoteMock,
        (handle_match_mock st r).2
          = "HTTP/1.1 " ++ m.response.status ++ "\r\ncontent-length: "
              ++ toString m.response.body.utf8ByteSize ++ "\r\n"
              ++ String.join (m.response.headers.map fun p => p.1 ++ ": " ++ p.2 ++ "\r\n")
              ++ "\r\n" ++ m.response.body) := by
  refine ⟨fun st => rfl, fun st m => rfl, ?_, by decide, by decide, by decide,
    fun st e => rfl, ?_, ?_, ?_⟩
  · intro st mock_id
    cases hidx : st.mocks.findIdx? (fun mock => mock.id == mock_id) with
    | some pos => exact Or.inl (by simp [handle_delete_mock, hidx])
    | none => exact Or.inr (by simp [handle_delete_mock, hidx])
  · intro st mock_id
    cases hfind : st.mocks.find? (fun mock => mock.id == mock_id) with
    | none => exact Or.inl (by simp [handle_get_mock, hfind])
    | some m =>
        refine Or.inr ⟨m, List.mem_of_find?_eq_some hfind, ?_⟩
        simp [handle_get_mock, hfind]
  · intro st
    exact ⟨match st.unmatched_requests.getLast? with
      | some request => request.render
      | none => "", rfl⟩
  · intro st r
    cases hmb : matchAndBump r st.mocks with
    | none => exact Or.inl (by simp [handle_match_mock, hmb])
    | some pair =>
        cases pair with
        | mk ms2 mk2 =>
            refine Or.inr ⟨mk2, ?_⟩
            simp [handle_match_mock, hmb, cannedResponse]

/-- C10 counterexample: the id-capturing regexes use the regex crate's
Unicode-aware `\w`, so an id made of a non-ASCII word character (here `é`)
still reaches the administrative handler and can produce the administrative
404, contradicting the claim that only ids over `[A-Za-z0-9_]` reach it. -/
theorem C10_counterexample :
    ("é").data.all asciiWordChar = false ∧
    unicodeIdRequest.path = "/mockito/mocks/" ++ "é" ∧
    (handle_request sampleDecode ⟨[], []⟩ unicodeIdRequest).2
      = "HTTP/1.1 404 Not Found\r\n\r\n" :=
  ⟨by decide, by decide, by decide⟩

/-- C10 amended: the id-capturing administrative routes match exactly the
nonempty ids all of whose characters are regex word characters (`\w`, which
is Unicode-aware: over ASCII it is `[A-Za-z0-9_]` but it also admits further
Unicode word characters).  Every nonempty id made of word characters is
routed to the administrative handlers; and for ids whose characters all lie
below U+0100 — the range on which `wordChar` embeds `\w` exactly — any id
containing a non-word character (for example a hyphen or a dot), or an empty
id, falls through to the mock-matching protocol.  (Word characters at or
above U+0100 are outside the modelled range: the program routes those ids to
the administrative handlers as well.) -/
theorem C10_word_char_id_routing
    (decode : String → Except String RemoteMock) (st : State)
    (hs : List (String × String)) (bd id : String) :
    (id.data ≠ [] → id.data.all wordChar = true →
      handle_request decode st ⟨"GET", "/mockito/mocks/" ++ id, hs, bd⟩
          = handle_get_mock st id ∧
      handle_request decode st ⟨"DELETE", "/mockito/mocks/" ++ id, hs, bd⟩
          = handle_delete_mock st id) ∧
    ((∀ c ∈ id.data, c.toNat < 0x100) →
      ¬ (id.data ≠ [] ∧ id.data.all wordChar = true) →
      handle_request decode st ⟨"GET", "/mockito/mocks/" ++ id, hs, bd⟩
          = handle_match_mock st ⟨"GET", "/mockito/mocks/" ++ id, hs, bd⟩ ∧
      handle_request decode st ⟨"DELETE", "/mockito/mocks/" ++ id, hs, bd⟩
          = handle_match_mock st ⟨"DELETE", "/mockito/mocks/" ++ id, hs, bd⟩) := by
  have hlineG : (("GET" : String) ++ " " ++ ("/mockito/mocks/" ++ id)).data
      = ("GET /mockito/mocks/").data ++ id.data := by
    simp [String.data_append]
  have hlineD : (("DELETE" : String) ++ " " ++ ("/mockito/mocks/" ++ id)).data
      = ("DELETE /mockito/mocks/").data ++ id.data := by
    simp [String.data_append]
  have hxGD : stripRoute (("GET /mockito/mocks/").data)
      ((("DELETE /mockito/mocks/").data) ++ id.data) = none := rfl
  have hxDG : stripRoute (("DELETE /mockito/mocks/").data)
      ((("GET /mockito/mocks/").data) ++ id.data) = none := rfl
  have hneGP : ¬ ("GET /mockito/mocks/").data ++ id.data = ("POST /mockito/mocks").data := by
    intro h
    have h1 : (("GET /mockito/mocks/").data ++ id.data).head? = some 'G' := rfl
    rw [h] at h1
    exact absurd h1 (by decide)
  have hneGD : ¬ ("GET /mockito/mocks/").data ++ id.data = ("DELETE /mockito/mocks").data := by
    intro h
    have h1 : (("GET /mockito/mocks/").data ++ id.data).head? = some 'G' := rfl
    rw [h] at h1
    exact absurd h1 (by decide)
  have hneGL : ¬ ("GET /mockito/mocks/").data ++ id.data
      = ("GET /mockito/last_unmatched_request").data := by
    intro h
    have h1 : ((("GET /mockito/mocks/").data ++ id.data).drop 13).head? = some 'm' := rfl
    rw [h] at h1
    exact absurd h1 (by decide)
  have hneDP : ¬ ("DELETE /mockito/mocks/").data ++ id.data = ("POST /mockito/mocks").data := by
    intro h
    have h1 : (("DELETE /mockito/mocks/").data ++ id.data).head? = some 'D' := rfl
    rw [h] at h1
    exact absurd h1 (by decide)
  have hneDD : ¬ ("DELETE /mockito/mocks/").data ++ id.data
      = ("DELETE /mockito/mocks").data := by
    intro h
    have h1 : (("DELETE /mockito/mocks/").data ++ id.data).drop 21 = '/' :: id.data := rfl
    rw [h] at h1
    have h2 : (("DELETE /mockito/mocks").data).drop 21 = [] := rfl
    rw [h2] at h1
    exact List.cons_ne_nil _ _ h1.symm
  have hneDL : ¬ ("DELETE /mockito/mocks/").data ++ id.data
      = ("GET /mockito/last_unmatched_request").data := by
    intro h
    have h1 : (("DELETE /mockito/mocks/").data ++ id.data).head? = some 'D' := rfl
    rw [h] at h1
    exact absurd h1 (by decide)
  constructor
  · intro hne hall
    have hcond : (!id.data.isEmpty && id.data.all wordChar) = true := by
      simp [hall, hne]
    constructor
    · simp only [handle_request]
      rw [hlineG]
      rw [show wordCapture (("GET /mockito/mocks/").data)
            ((("GET /mockito/mocks/").data) ++ id.data) = some id.data from by
        simp only [wordCapture, stripRoute_append, hcond, if_true]]
    · simp only [handle_request]
      rw [hlineD]
      rw [show wordCapture (("GET /mockito/mocks/").data)
            ((("DELETE /mockito/mocks/").data) ++ id.data) = none from by
        simp only [wordCapture, hxGD]]
      dsimp only
      rw [if_neg hneDP, if_neg hneDD]
      rw [show wordCapture (("DELETE /mockito/mocks/").data)
            ((("DELETE /mockito/mocks/").data) ++ id.data) = some id.data from by
        simp only [wordCapture, stripRoute_append, hcond, if_true]]
  · intro hlow hbad
    have hcond : (!id.data.isEmpty && id.data.all wordChar) = false := by
      by_cases hnil : id.data = []
      · simp [hnil]
      · have hallf : id.data.all wordChar = false := by
          cases hallv : id.data.all wordChar with
          | true => exact absurd ⟨hnil, hallv⟩ hbad
          | false => rfl
        simp [hallf]
    constructor
    · simp only [handle_request]
      rw [hlineG]
      rw [show wordCapture (("GET /mockito/mocks/").data)
            ((("GET /mockito/mocks/").data) ++ id.data) = none from by
        simp only [wordCapture, stripRoute_append, hcond, Bool.false_eq_true, if_false]]
      dsimp only
      rw [if_neg hneGP, if_neg hneGD]
      rw [show wordCapture (("DELETE /mockito/mocks/").data)
            ((("GET /mockito/mocks/").data) ++ id.data) = none from by
        simp only [wordCapture, hxDG]]
      dsimp only
      rw [if_neg hneGL]
    · simp only [handle_request]
      rw [hlineD]
      rw [show wordCapture (("GET /mockito/mocks/").data)
            ((("DELETE /mockito/mocks/").data) ++ id.data) = none from by
        simp only [wordCapture, hxGD]]
      dsimp only
      rw [if_neg hneDP, if_neg hneDD]
      rw [show wordCapture (("DELETE /mockito/mocks/").data)
            ((("DELETE /mockito/mocks/").data) ++ id.data) = none from by
        simp only [wordCapture, stripRoute_append, hcond, Bool.false_eq_true, if_false]]
      dsimp only
      rw [if_neg hneDL]

theorem C10_witness :
    handle_request sampleDecode ⟨[], []⟩ ⟨"GET", "/mockito/mocks/" ++ "abc", [], ""⟩
      = handle_get_mock ⟨[], []⟩ "abc" ∧
    handle_request sampleDecode ⟨[], []⟩ ⟨"GET", "/mockito/mocks/" ++ "ab-c", [], ""⟩
      = handle_match_mock ⟨[], []⟩ ⟨"GET", "/mockito/mocks/" ++ "ab-c", [], ""⟩ :=
  ⟨((C10_word_char_id_routing sampleDecode ⟨[], []⟩ [] "" "abc").1
      (by decide) (by decide)).1,
    ((C10_word_char_id_routing sampleDecode ⟨[], []⟩ [] "" "ab-c").2
      (by decide) (by decide)).1⟩
